import Mathlib

/-!
Verification of the client-side session store, authenticated request
pipeline, notification store and validation helpers of the
Eye-Disease-Detection front end.

The JavaScript sources are embedded shallowly: browser local storage
becomes an explicit `Store` record, an HTTP response becomes a `Response`
record carrying the data the code inspects (status, whether the content
type is JSON, the body text, and the message field of a JSON body), and
each stateful function becomes a pure function from the old state to the
new state plus an `Except`-classified outcome (a thrown `Error` becomes
`Except.error` with the error message).

The repository contains two divergent copies of `AuthService.js`
(and hence of `setToken` and `authFetch`); both are embedded, as
`AuthServiceV1` (the copy whose `authFetch` clears the session on every
HTTP 401) and `AuthServiceV2` (the copy whose `authFetch` inspects the
401 body for the word "password" before clearing).
-/

/-! ## String helpers mirroring the JavaScript primitives used -/

/-- Test whether the second list occurs at the head of the first
(the needle is a prefix of the haystack). -/
def leadsWith : List Char → List Char → Bool
  | _, [] => true
  | [], _ :: _ => false
  | a :: as, b :: bs => a == b && leadsWith as bs

/-- Test whether the second list occurs contiguously anywhere in the
first; mirror of JavaScript `String.prototype.includes` on char lists. -/
def hasSub : List Char → List Char → Bool
  | [], needle => needle.isEmpty
  | a :: as, needle => leadsWith (a :: as) needle || hasSub as needle

/-- Mirror of JavaScript `hay.includes(needle)`. -/
def includesStr (hay needle : String) : Bool :=
  hasSub hay.data needle.data

/-- Mirror of JavaScript `String.prototype.toLowerCase` (ASCII range,
which is all the code compares). -/
def lowerStr (s : String) : String :=
  ⟨s.data.map Char.toLower⟩

/-- Mirror of `text.toLowerCase().includes('password')`, the test both
401 handlers apply to the response text. -/
def mentionsPassword (t : String) : Bool :=
  includesStr (lowerStr t) "password"

/-- Characters matched by the JavaScript whitespace class in the regex
`/^Bearer\s+/i` (the forms that can occur in a token string). -/
def isJsSpace (c : Char) : Bool :=
  c == ' ' || c == '\t' || c == '\n' || c == '\r' || c == '\x0b' || c == '\x0c'

/-- Drop the maximal run of whitespace, the greedy `\s+` of the regex. -/
def dropJsSpaces : List Char → List Char
  | [] => []
  | c :: cs => if isJsSpace c then dropJsSpaces cs else c :: cs

/-- Mirror of `token.replace(/^Bearer\s+/i, '')`: when the string opens
with the six letters of "bearer" in any case followed by at least one
whitespace character, the prefix and the whole whitespace run are
removed; otherwise the string is unchanged. -/
def stripBearer (t : String) : String :=
  match t.data with
  | b :: e :: a :: r :: e2 :: r2 :: w :: rest =>
    if b.toLower == 'b' && e.toLower == 'e' && a.toLower == 'a' &&
       r.toLower == 'r' && e2.toLower == 'e' && r2.toLower == 'r' && isJsSpace w
    then ⟨dropJsSpaces rest⟩
    else t
  | _ => t

/-! ## Session store (browser local storage keys used by AuthService) -/

/-- Local-storage state: the `jwt_token` and `isAuthenticated` entries;
`none` models an absent key (JavaScript `localStorage.getItem` returning
`null`). -/
structure Store where
  jwt_token : Option String
  authFlag : Option String
deriving Repr, DecidableEq

/-- Mirror of `getToken`: read the `jwt_token` entry. -/
def getToken (s : Store) : Option String :=
  s.jwt_token

/-- Mirror of `removeToken`: remove both entries. -/
def removeToken (_s : Store) : Store :=
  ⟨none, none⟩

/-- JavaScript truthiness of a possibly-absent string (`!!value`):
false exactly for `null` and the empty string. -/
def truthy : Option String → Bool
  | none => false
  | some t => t != ""

/-- Mirror of `isAuthenticated`:
`localStorage.getItem('isAuthenticated') === 'true' && !!getToken()`. -/
def isAuthenticated (s : Store) : Bool :=
  (s.authFlag == some "true") && truthy (getToken s)

namespace AuthServiceV1

/-- Mirror of `setToken` in the first copy of AuthService.js: the
argument is stored verbatim and the flag is set. -/
def setToken (_s : Store) (token : String) : Store :=
  ⟨some token, some "true"⟩

end AuthServiceV1

namespace AuthServiceV2

/-- Mirror of `setToken` in the second copy of AuthService.js: the
`Bearer` scheme prefix is stripped before storing, and the flag is set. -/
def setToken (_s : Store) (token : String) : Store :=
  ⟨some (stripBearer token), some "true"⟩

end AuthServiceV2

/-! ## HTTP response model and the authenticated request pipeline -/

/-- The observable parts of a `fetch` response that the pipeline
inspects: the status code, whether the content-type header includes
`application/json`, the body as text (`response.text()`), and the
`message` field of the parsed JSON body (`none` when the field is
absent). -/
structure Response where
  status : Nat
  ctJson : Bool
  body : String
  jsonMessage : Option String
deriving Repr, DecidableEq

/-- Mirror of `Response.ok`: status in the 2xx range. -/
def respOk (r : Response) : Bool :=
  200 ≤ r.status && r.status < 300

/-- Mirror of `errorData.message || fallback` after `response.json()`:
the message field when present and non-empty, else the fallback. -/
def jsMessageOr (m : Option String) (fallback : String) : String :=
  match m with
  | some t => if t == "" then fallback else t
  | none => fallback

/-- The response text the second authFetch extracts on a 401: for a JSON
content type the `message` field (empty string if absent), otherwise the
body text. -/
def extractedText (r : Response) : String :=
  if r.ctJson then jsMessageOr r.jsonMessage "" else r.body

namespace AuthServiceV1

/-- Mirror of `authFetch` in the first copy of AuthService.js: fail when
no (truthy) token is stored; on a 401 response clear the session and
throw the session-expired error unconditionally; otherwise return the
response. The response the network would deliver is passed explicitly.
This copy never reads the response body, so the returned response is
paired with `false`: its one-shot body stream is still unread. -/
def authFetch (s : Store) (r : Response) : Store × Except String (Response × Bool) :=
  match s.jwt_token with
  | none => (s, .error "Not authenticated")
  | some t =>
    if t == "" then (s, .error "Not authenticated")
    else if r.status == 401 then
      (removeToken s, .error "Session expired. Please login again.")
    else (s, .ok (r, false))

end AuthServiceV1

namespace AuthServiceV2

/-- Mirror of `authFetch` in the second copy of AuthService.js: on a 401
the handler extracts the response text (`response.json()` for a JSON
content type, else `response.text()`); when that text is truthy and
mentions "password" the raw response is returned; otherwise the session
is cleared and the session-expired error thrown. Extracting the text
CONSUMES the response's one-shot body stream, so the response returned
on the password path is paired with `true` (body already read); on the
non-401 path nothing is read and the pair carries `false`. -/
def authFetch (s : Store) (r : Response) : Store × Except String (Response × Bool) :=
  match s.jwt_token with
  | none => (s, .error "Not authenticated")
  | some t =>
    if t == "" then (s, .error "Not authenticated")
    else if r.status == 401 then
      let responseText := extractedText r
      if responseText != "" && mentionsPassword responseText then (s, .ok (r, true))
      else (removeToken s, .error "Session expired. Please login again.")
    else (s, .ok (r, false))

end AuthServiceV2

/-- Successful payload of `apiRequest`: parsed JSON data or raw text,
abstracted as the body it was built from. -/
inductive ApiPayload where
  | jsonData (body : String)
  | textData (body : String)
deriving Repr, DecidableEq

deriving instance DecidableEq for Except

/-- Model of the TypeError a fetch `Response` throws when its one-shot
body stream is read a second time (message text as in Chromium; the
method name varies with the read that failed, which is not tracked). -/
def bodyStreamAlreadyRead : String :=
  "Failed to execute 'text' on 'Response': body stream already read"

/-- Mirror of `apiRequest` in `src/utils/ApiInterceptor.js`,
parameterised by the `authFetch` implementation it delegates to, which
returns the response paired with the state of its one-shot body stream
(`true` when authFetch already consumed it). Every body read apiRequest
performs (`response.json()`, `response.text()`) rejects with the
body-stream-already-read TypeError when the stream was consumed, and the
surrounding catch blocks rethrow that error. Otherwise: on a 2xx
response the body is returned (JSON-parsed or as text); on a 401 the
body text is inspected for "password" (throwing the raw text if found,
else clearing the session and throwing the expiry message); 403, 404 and
500 map to fixed messages without reading the body; any other status
surfaces the JSON `message` field or body text, with a generic fallback.
The navigation side effect `window.location.href = '/login'` is not
modelled. -/
def apiRequest (authF : Store → Response → Store × Except String (Response × Bool))
    (s : Store) (r : Response) : Store × Except String ApiPayload :=
  match authF s r with
  | (s', .error e) => (s', .error e)
  | (s', .ok (resp, used)) =>
    if respOk resp then
      if used then (s', .error bodyStreamAlreadyRead)
      else if resp.ctJson then (s', .ok (.jsonData resp.body))
      else (s', .ok (.textData resp.body))
    else if resp.status == 401 then
      if used then (s', .error bodyStreamAlreadyRead)
      else
        let responseText := resp.body
        if responseText != "" && mentionsPassword responseText then
          (s', .error responseText)
        else
          (removeToken s', .error "Your session has expired. Please login again.")
    else if resp.status == 403 then
      (s', .error "You do not have permission to perform this action.")
    else if resp.status == 404 then
      (s', .error "The requested resource was not found.")
    else if resp.status == 500 then
      (s', .error "Server error. Please try again later.")
    else if used then (s', .error bodyStreamAlreadyRead)
    else if resp.ctJson then
      (s', .error (jsMessageOr resp.jsonMessage "Something went wrong. Please try again."))
    else if resp.body != "" then (s', .error resp.body)
    else (s', .error "Something went wrong. Please try again.")

/-- The request pipeline built on the first authFetch copy. -/
def pipelineV1 (s : Store) (r : Response) : Store × Except String ApiPayload :=
  apiRequest AuthServiceV1.authFetch s r

/-- The request pipeline built on the second authFetch copy. -/
def pipelineV2 (s : Store) (r : Response) : Store × Except String ApiPayload :=
  apiRequest AuthServiceV2.authFetch s r

/-! ## Validation helpers (ValidationUtils in unnamed part_006) -/

/-- Result shape of the validators: `{ isValid, message }`. -/
structure ValidationResult where
  isValid : Bool
  message : String
deriving Repr, DecidableEq

/-- Membership in the regex class `[A-Z]`. -/
def isUpChar (c : Char) : Bool := 'A' ≤ c && c ≤ 'Z'

/-- Membership in the regex class `[a-z]`. -/
def isLowChar (c : Char) : Bool := 'a' ≤ c && c ≤ 'z'

/-- Membership in the regex class `[0-9]`. -/
def isDigChar (c : Char) : Bool := '0' ≤ c && c ≤ '9'

/-- Mirror of the regex test `/[A-Z]/.test(password)`. -/
def hasUpper (p : String) : Bool := p.data.any isUpChar

/-- Mirror of the regex test `/[a-z]/.test(password)`. -/
def hasLower (p : String) : Bool := p.data.any isLowChar

/-- Mirror of the regex test `/[0-9]/.test(password)`. -/
def hasDigit (p : String) : Bool := p.data.any isDigChar

/-- The characters of the validator's special-character class
(brace, apostrophe and double quote written via their code points). -/
def specialChars : List Char :=
  ['!', '@', '#', '$', '%', '^', '&', '*', '(', ')', '_', '+', '-', '=',
   '[', ']', Char.ofNat 123, Char.ofNat 125, ';', Char.ofNat 39, ':',
   Char.ofNat 34, '\\', '|', ',', '.', '<', '>', '/', '?']

/-- Mirror of the validator's special-character regex test. -/
def hasSpecialListed (p : String) : Bool :=
  p.data.any (fun c => specialChars.contains c)

/-- Mirror of the strength meter's complexity test `/[^A-Za-z0-9]/`:
any character outside the three alphanumeric classes. -/
def hasOther (p : String) : Bool :=
  p.data.any (fun c => !(isUpChar c || isLowChar c || isDigChar c))

/-- Mirror of `validatePasswordStrength`: a guard chain returning the
first failing rule's message, `isValid` only when every rule passes. -/
def validatePasswordStrength (password : String) : ValidationResult :=
  if password == "" then ⟨false, "Password is required"⟩
  else if password.length < 8 then
    ⟨false, "Password must be at least 8 characters"⟩
  else if !hasUpper password then
    ⟨false, "Password must contain at least one uppercase letter"⟩
  else if !hasLower password then
    ⟨false, "Password must contain at least one lowercase letter"⟩
  else if !hasDigit password then
    ⟨false, "Password must contain at least one number"⟩
  else if !hasSpecialListed password then
    ⟨false, "Password must contain at least one special character"⟩
  else ⟨true, "Password is strong"⟩

/-- File data inspected by the file validators: byte size and MIME type. -/
structure FileInfo where
  size : Nat
  ftype : String
deriving Repr, DecidableEq

/-- The accepted MIME types, shared by both file validators. -/
def validTypes : List String := ["image/jpeg", "image/png", "image/jpg"]

/-- Mirror of `validateImageFile(file, maxSizeInMB)` (default limit 5):
absent file, then size against `maxSizeInMB * 1024 * 1024`, then type. -/
def validateImageFile (file : Option FileInfo) (maxSizeInMB : Nat) : ValidationResult :=
  match file with
  | none => ⟨false, "No file selected"⟩
  | some f =>
    let maxSizeInBytes := maxSizeInMB * 1024 * 1024
    if maxSizeInBytes < f.size then
      ⟨false, "File size exceeds " ++ toString maxSizeInMB ++
        "MB limit. Please upload a smaller image."⟩
    else if !(validTypes.contains f.ftype) then
      ⟨false, "Unsupported file format: " ++ f.ftype ++
        ". Please upload a JPEG or PNG image."⟩
    else ⟨true, "File is valid"⟩

/-- Result shape of the strength meter helper: `{ score, label, color }`. -/
structure StrengthResult where
  score : Nat
  label : String
  color : String
deriving Repr, DecidableEq

/-- The score accumulated by `calculatePasswordStrength` for a non-empty
password: one point each for length at least 8, length at least 12, and
the four character classes. -/
def scoreOf (password : String) : Nat :=
  (if 8 ≤ password.length then 1 else 0) +
  (if 12 ≤ password.length then 1 else 0) +
  (if hasUpper password then 1 else 0) +
  (if hasLower password then 1 else 0) +
  (if hasDigit password then 1 else 0) +
  (if hasOther password then 1 else 0)

/-- Mirror of `calculatePasswordStrength`: the empty password maps to
the None result, otherwise the score selects Weak, Moderate or
Strong, with a final fallback branch repeating the None result. -/
def calculatePasswordStrength (password : String) : StrengthResult :=
  if password == "" then ⟨0, "None", "bg-gray-200"⟩
  else
    let score := scoreOf password
    if score ≤ 2 then ⟨score, "Weak", "bg-red-500"⟩
    else if score ≤ 4 then ⟨score, "Moderate", "bg-yellow-500"⟩
    else if score ≤ 6 then ⟨score, "Strong", "bg-green-500"⟩
    else ⟨0, "None", "bg-gray-200"⟩

/-- Mirror of `strengthPercentage = (strength.score / 6) * 100` in
PasswordStrengthMeter.js, computed exactly over the rationals. -/
def strengthPercentage (password : String) : ℚ :=
  ((calculatePasswordStrength password).score : ℚ) / 6 * 100

namespace FileUpload

/-- Mirror of `validateFile` in FileUpload.js: type first, then size;
the returned string is the message passed to `setError`/`showError`
(empty when the file is accepted). -/
def validateFile (f : FileInfo) : Bool × String :=
  if !(validTypes.contains f.ftype) then
    (false, "Please select a valid image file (JPEG or PNG)")
  else if 5 * 1024 * 1024 < f.size then
    (false, "File size exceeds 5MB limit. Please select a smaller image.")
  else (true, "")

/-- Mirror of the selection logic of `handleFileChange`: the file
becomes the selected file (later submitted to the network by
`handleSubmit`) only when `validateFile` accepts it. -/
def handleFileChange (f : FileInfo) : Option FileInfo :=
  if (validateFile f).1 then some f else none

end FileUpload

/-! ## Notification store (AlertContext.js) -/

/-- An entry of the alert list: id (the `Date.now()` timestamp at
insertion), message and type. -/
structure Alert where
  id : Nat
  message : String
  type : String
deriving Repr, DecidableEq

/-- The duplicate test applied by `addAlert`: same message and type. -/
def dupPred (m k : String) (a : Alert) : Bool :=
  a.message == m && a.type == k

/-- Mirror of the `alerts.some(...)` duplicate check. -/
def hasDuplicate (alerts : List Alert) (m k : String) : Bool :=
  alerts.any (dupPred m k)

/-- Mirror of `addAlert(message, type, timeout)` acting on the visible
alert list, with the `Date.now()` timestamp passed explicitly as `now`:
when a visible duplicate exists nothing is added and `none` (null) is
returned, otherwise the new alert is appended and its id returned.
The scheduled auto-removal (`setTimeout` of `removeAlert id`) is a
future event and not part of the immediate state change. -/
def addAlert (alerts : List Alert) (now : Nat) (m k : String) :
    List Alert × Option Nat :=
  if hasDuplicate alerts m k then (alerts, none)
  else (alerts ++ [⟨now, m, k⟩], some now)

/-- Mirror of `removeAlert(id)`: keep the alerts whose id differs. -/
def removeAlert (alerts : List Alert) (id : Nat) : List Alert :=
  alerts.filter (fun a => a.id != id)

/-- Number of visible alerts carrying a given (message, type) pair. -/
def countPair (alerts : List Alert) (m k : String) : Nat :=
  (alerts.filter (dupPred m k)).length

/-- Two alerts with distinct (message, type) pairs. -/
def distinctPair (a b : Alert) : Prop :=
  ¬(a.message = b.message ∧ a.type = b.type)

/-- All visible alerts have pairwise distinct ids. -/
def distinctIds (s : List Alert) : Prop :=
  List.Pairwise (fun a b => a.id ≠ b.id) s

instance (a b : Alert) : Decidable (distinctPair a b) := by
  unfold distinctPair; infer_instance

instance (s : List Alert) : Decidable (distinctIds s) := by
  unfold distinctIds; infer_instance

/-! ## Image-analysis domain service (EyeAnalysisService.js) -/

/-- One entry of the conditions list: `{ name, probability }`. -/
structure Condition where
  name : String
  probability : ℚ
deriving Repr, DecidableEq

/-- The AnalysisResult shape produced by `analyzeEyeImage`. -/
structure AnalysisResult where
  diagnosis : String
  confidence : ℚ
  conditions : List Condition
  recommendations : String
deriving Repr, DecidableEq

/-- The fields of the inference response that the transform reads:
`predicted_class`, `confidence` and the per-class confidence map
(an object embedded as its key-ordered entry list). -/
structure InferenceResponse where
  predicted_class : String
  confidence : ℚ
  all_confidence_scores : List (String × ℚ)
deriving Repr, DecidableEq

/-- Mirror of JavaScript `str.replace('_', ' ')`: only the first
underscore is replaced. -/
def replaceFirstUnderscore : List Char → List Char
  | [] => []
  | c :: cs => if c == '_' then ' ' :: cs else c :: replaceFirstUnderscore cs

/-- Mirror of `getRecommendations`: the fixed lookup table keyed by the
predicted class. -/
def getRecommendations (diagnosis : String) : String :=
  if diagnosis == "cataract" then
    "Signs of cataract detected. Please consult an ophthalmologist for further evaluation."
  else if diagnosis == "diabetic_retinopathy" then
    "Signs of diabetic retinopathy detected. Urgent consultation with an ophthalmologist is recommended."
  else if diagnosis == "glaucoma" then
    "Signs of glaucoma detected. Please schedule an appointment with an ophthalmologist for pressure testing."
  else if diagnosis == "normal" then
    "Your eye appears healthy. Continue with regular eye check-ups."
  else
    "Please consult with an eye care professional for a complete evaluation."

/-- Mirror of `getAllConditions`: map the confidence-score entries to
`{ name, probability }` records, prettifying each key. -/
def getAllConditions (scores : List (String × ℚ)) : List Condition :=
  scores.map (fun p => ⟨⟨replaceFirstUnderscore p.1.data⟩, p.2⟩)

/-- Mirror of the success-path transform of `analyzeEyeImage`: the
response of the inference endpoint mapped into the AnalysisResult
shape. -/
def analyzeEyeImageSuccess (data : InferenceResponse) : AnalysisResult :=
  { diagnosis := ⟨replaceFirstUnderscore data.predicted_class.data⟩
    confidence := data.confidence
    conditions := getAllConditions data.all_confidence_scores
    recommendations := getRecommendations data.predicted_class }

/-! ## Theorems -/

/-- C3: `isAuthenticated()` returns true iff the authenticated flag is
set (stores the string "true") and a token is present (a stored, truthy
token string); in particular a session with no stored token always
reports false. -/
theorem isAuthenticated_iff (s : Store) :
    (isAuthenticated s = true ↔
      s.authFlag = some "true" ∧ ∃ t, getToken s = some t ∧ t ≠ "")
    ∧ (getToken s = none → isAuthenticated s = false) := by
  obtain ⟨tok, flag⟩ := s
  cases tok <;>
    simp [isAuthenticated, getToken, truthy, bne_iff_ne]

/-- C3 witness: a session whose token entry is absent (even with the
flag set) reports unauthenticated. -/
theorem isAuthenticated_iff_witness :
    isAuthenticated ⟨none, some "true"⟩ = false :=
  (isAuthenticated_iff ⟨none, some "true"⟩).2 rfl

/-- C2 counterexample: the first copy of `setToken` stores the raw
string "Bearer abc" verbatim, with the scheme prefix still attached,
although the stripped token would be "abc". -/
theorem setToken_v1_keeps_scheme :
    getToken (AuthServiceV1.setToken ⟨none, none⟩ "Bearer abc") = some "Bearer abc"
    ∧ stripBearer "Bearer abc" = "abc"
    ∧ "Bearer abc" ≠ "abc" := by
  refine ⟨rfl, rfl, by decide⟩

/-- C2 amended: the second copy of `setToken` persists the token with
any leading Bearer scheme prefix stripped and sets the authenticated
flag, and `getToken` then returns the stripped token; the first copy
sets the flag but persists its argument verbatim (its `login` callers
strip the prefix before calling it). -/
theorem setToken_versions (s : Store) (raw : String) :
    getToken (AuthServiceV2.setToken s raw) = some (stripBearer raw)
    ∧ (AuthServiceV2.setToken s raw).authFlag = some "true"
    ∧ getToken (AuthServiceV1.setToken s raw) = some raw
    ∧ (AuthServiceV1.setToken s raw).authFlag = some "true" :=
  ⟨rfl, rfl, rfl, rfl⟩

/-- C4: every password shorter than 8 characters is reported invalid,
and a password is reported valid only if it has at least 8 characters
and contains an uppercase letter, a lowercase letter, a digit and one of
the listed special characters. -/
theorem validatePasswordStrength_spec (p : String) :
    (p.length < 8 → (validatePasswordStrength p).isValid = false)
    ∧ ((validatePasswordStrength p).isValid = true →
        8 ≤ p.length ∧ hasUpper p = true ∧ hasLower p = true
        ∧ hasDigit p = true ∧ hasSpecialListed p = true) := by
  unfold validatePasswordStrength
  split_ifs with h0 h1 h2 h3 h4 h5 <;> simp_all

/-- C4 witness: the three-character password "abc" is rejected, and the
accepted password "Abcdef1!" indeed has at least 8 characters. -/
theorem validatePasswordStrength_spec_witness :
    (validatePasswordStrength "abc").isValid = false
    ∧ 8 ≤ ("Abcdef1!" : String).length :=
  ⟨(validatePasswordStrength_spec "abc").1 (by decide),
   ((validatePasswordStrength_spec "Abcdef1!").2 (by decide)).1⟩

/-- C10: the validator and the strength meter disagree on special
characters: "Abcdef1 " (trailing space, length 8, with uppercase,
lowercase and a digit) is rejected by `validatePasswordStrength` for
lacking a listed special character, while `calculatePasswordStrength`
counts the space as a non-alphanumeric character, awards score 5 and
labels the password Strong (not Weak). -/
theorem validator_meter_disagree :
    (validatePasswordStrength "Abcdef1 ").isValid = false
    ∧ (validatePasswordStrength "Abcdef1 ").message =
        "Password must contain at least one special character"
    ∧ hasSpecialListed "Abcdef1 " = false
    ∧ hasOther "Abcdef1 " = true
    ∧ (calculatePasswordStrength "Abcdef1 ").score = 5
    ∧ (calculatePasswordStrength "Abcdef1 ").label = "Strong" :=
  ⟨rfl, rfl, rfl, rfl, rfl, rfl⟩

/-- The score is a sum of six indicator terms, so it never exceeds 6. -/
theorem scoreOf_le_six (p : String) : scoreOf p ≤ 6 := by
  unfold scoreOf
  split_ifs <;> omega

/-- Every character falls in one of the four complexity classes the
meter tests (the fourth class is the complement of the other three). -/
theorem char_class_total (c : Char) :
    isUpChar c = true ∨ isLowChar c = true ∨ isDigChar c = true
    ∨ (!(isUpChar c || isLowChar c || isDigChar c)) = true := by
  cases hu : isUpChar c <;> cases hl : isLowChar c <;>
    cases hd : isDigChar c <;> simp [hu, hl, hd]

/-- A non-empty password satisfies at least one of the four class
tests, through its first character. -/
theorem class_of_ne_empty (p : String) (hp : p ≠ "") :
    hasUpper p = true ∨ hasLower p = true ∨ hasDigit p = true
    ∨ hasOther p = true := by
  obtain ⟨cs⟩ := p
  cases cs with
  | nil => exact absurd rfl hp
  | cons c cs =>
    rcases char_class_total c with h | h | h | h
    · exact Or.inl (by simp [hasUpper, List.any_cons, h])
    · exact Or.inr (Or.inl (by simp [hasLower, List.any_cons, h]))
    · exact Or.inr (Or.inr (Or.inl (by simp [hasDigit, List.any_cons, h])))
    · refine Or.inr (Or.inr (Or.inr ?_))
      have : (!(isUpChar c || isLowChar c || isDigChar c)) = true := h
      simp only [hasOther, List.any_cons, this, Bool.true_or]

/-- A non-empty password scores at least one point. -/
theorem scoreOf_pos (p : String) (hp : p ≠ "") : 1 ≤ scoreOf p := by
  unfold scoreOf
  rcases class_of_ne_empty p hp with h | h | h | h <;>
    simp only [h, if_true] <;> split_ifs <;> omega

/-- A score of at most 6 keeps the meter percentage at or below 100. -/
theorem pct_le_of_le_six (n : Nat) (h : n ≤ 6) : (n : ℚ) / 6 * 100 ≤ 100 := by
  have hn : (n : ℚ) ≤ 6 := by exact_mod_cast h
  have h6 : (0 : ℚ) < 6 := by norm_num
  rw [div_mul_eq_mul_div, div_le_iff₀ h6]
  nlinarith

/-- C9: the strength score always lies between 0 and 6, the empty
password maps to the None result, a non-empty password scores at least 1
and its label is determined by the score (Weak up to 2, Moderate up to
4, Strong up to 6, the fallback None branch being unreachable), and the
meter percentage score / 6 * 100 never exceeds 100. -/
theorem calculatePasswordStrength_spec (p : String) :
    (calculatePasswordStrength p).score ≤ 6
    ∧ (p = "" → calculatePasswordStrength p = ⟨0, "None", "bg-gray-200"⟩)
    ∧ (p ≠ "" →
        1 ≤ (calculatePasswordStrength p).score
        ∧ (calculatePasswordStrength p).label =
            (if (calculatePasswordStrength p).score ≤ 2 then "Weak"
             else if (calculatePasswordStrength p).score ≤ 4 then "Moderate"
             else "Strong"))
    ∧ strengthPercentage p ≤ 100 := by
  by_cases hp : p = ""
  · subst hp
    refine ⟨by decide, fun _ => rfl, fun h => absurd rfl h, ?_⟩
    unfold strengthPercentage
    norm_num [calculatePasswordStrength]
  · have h6 := scoreOf_le_six p
    have h1 := scoreOf_pos p hp
    have hne : (p == "") = false := by simp [hp]
    have hcalc : calculatePasswordStrength p =
        (if scoreOf p ≤ 2 then ⟨scoreOf p, "Weak", "bg-red-500"⟩
         else if scoreOf p ≤ 4 then ⟨scoreOf p, "Moderate", "bg-yellow-500"⟩
         else if scoreOf p ≤ 6 then ⟨scoreOf p, "Strong", "bg-green-500"⟩
         else ⟨0, "None", "bg-gray-200"⟩) := by
      unfold calculatePasswordStrength
      rw [hne]
      simp
    refine ⟨?_, fun h => absurd h hp, fun _ => ⟨?_, ?_⟩, ?_⟩
    · rw [hcalc]; split_ifs <;> simp <;> omega
    · rw [hcalc]; split_ifs <;> simp <;> omega
    · rw [hcalc]
      by_cases h2 : scoreOf p ≤ 2
      · rw [if_pos h2]; simp [h2]
      · rw [if_neg h2]
        by_cases h4 : scoreOf p ≤ 4
        · rw [if_pos h4]; simp [h2, h4]
        · rw [if_neg h4, if_pos (show scoreOf p ≤ 6 from h6)]
          simp [h2, h4]
    · unfold strengthPercentage
      rw [hcalc]
      by_cases h2 : scoreOf p ≤ 2
      · rw [if_pos h2]; exact pct_le_of_le_six (scoreOf p) h6
      · rw [if_neg h2]
        by_cases h4 : scoreOf p ≤ 4
        · rw [if_pos h4]; exact pct_le_of_le_six (scoreOf p) h6
        · rw [if_neg h4, if_pos (show scoreOf p ≤ 6 from h6)]
          exact pct_le_of_le_six (scoreOf p) h6

/-- C9 witness: the empty password yields the None result, and the
non-empty password "Abc12345" scores at least one point. -/
theorem calculatePasswordStrength_spec_witness :
    calculatePasswordStrength "" = ⟨0, "None", "bg-gray-200"⟩
    ∧ 1 ≤ (calculatePasswordStrength "Abc12345").score :=
  ⟨(calculatePasswordStrength_spec "").2.1 rfl,
   ((calculatePasswordStrength_spec "Abc12345").2.2.1 (by decide)).1⟩

/-- C5: `addAlert` preserves the no-duplicate invariant, and calling it
twice with the same (message, kind) starting from a state without that
pair leaves exactly one visible alert carrying the pair, the second call
returning null and leaving the list unchanged. -/
theorem addAlert_dedup :
    (∀ (s : List Alert) (n : Nat) (m k : String),
      List.Pairwise distinctPair s →
        List.Pairwise distinctPair (addAlert s n m k).1)
    ∧ (∀ (s : List Alert) (m k : String) (n1 n2 : Nat),
      hasDuplicate s m k = false →
        countPair (addAlert s n1 m k).1 m k = 1
        ∧ addAlert (addAlert s n1 m k).1 n2 m k = ((addAlert s n1 m k).1, none)) := by
  constructor
  · intro s n m k hpw
    by_cases hdup : hasDuplicate s m k = true
    · simpa [addAlert, hdup] using hpw
    · have hdup' : hasDuplicate s m k = false := by simpa using hdup
      have hnone : ∀ a ∈ s, ¬dupPred m k a = true :=
        List.any_eq_false.mp (by simpa [hasDuplicate] using hdup')
      simp only [addAlert, hdup', Bool.false_eq_true, if_false]
      rw [List.pairwise_append]
      refine ⟨hpw, List.pairwise_singleton _ _, ?_⟩
      intro a ha b hb
      simp only [List.mem_singleton] at hb
      subst hb
      intro hcon
      exact hnone a ha (by simp [dupPred, hcon.1, hcon.2])
  · intro s m k n1 n2 hdup
    have hstep : addAlert s n1 m k = (s ++ [⟨n1, m, k⟩], some n1) := by
      simp [addAlert, hdup]
    have hflt : s.filter (dupPred m k) = [] := by
      rw [List.filter_eq_nil_iff]
      exact List.any_eq_false.mp (by simpa [hasDuplicate] using hdup)
    have hdup1 : hasDuplicate (s ++ [⟨n1, m, k⟩]) m k = true := by
      simp [hasDuplicate, List.any_append, dupPred]
    constructor
    · rw [hstep]
      simp [countPair, List.filter_append, hflt, dupPred]
    · rw [hstep]
      simp [addAlert, hdup1]

/-- C5 witness: adding "saved" twice as a success alert to the empty
store keeps exactly one such alert, the second call returning null; the
invariant also holds after the first insertion. -/
theorem addAlert_dedup_witness :
    List.Pairwise distinctPair ((addAlert [] 1 "saved" "success").1)
    ∧ countPair ((addAlert [] 1 "saved" "success").1) "saved" "success" = 1
    ∧ addAlert ((addAlert [] 1 "saved" "success").1) 2 "saved" "success" =
        ((addAlert [] 1 "saved" "success").1, none) :=
  ⟨addAlert_dedup.1 [] 1 "saved" "success" (by decide),
   (addAlert_dedup.2 [] "saved" "success" 1 2 rfl).1,
   (addAlert_dedup.2 [] "saved" "success" 1 2 rfl).2⟩

/-- C6 counterexample: two alerts with different messages added during
the same millisecond (`Date.now()` returning 5 both times) are both
visible and share the id 5, and `removeAlert 5` removes both of them,
not exactly one. -/
theorem alert_id_clash :
    ((addAlert ((addAlert [] 5 "first message" "info").1) 5 "second message" "info").1).length = 2
    ∧ ((addAlert ((addAlert [] 5 "first message" "info").1) 5 "second message" "info").1).map Alert.id = [5, 5]
    ∧ removeAlert ((addAlert ((addAlert [] 5 "first message" "info").1) 5 "second message" "info").1) 5 = [] :=
  ⟨rfl, rfl, rfl⟩

/-- Removing an id from a list of alerts with pairwise-distinct ids
drops at most one element. -/
theorem removeAlert_length_aux (i : Nat) :
    ∀ s : List Alert, distinctIds s → s.length ≤ (removeAlert s i).length + 1 := by
  intro s
  induction s with
  | nil => intro _; simp [removeAlert]
  | cons a t ih =>
    intro hids
    rw [distinctIds, List.pairwise_cons] at hids
    obtain ⟨hhead, htail⟩ := hids
    by_cases ha : a.id = i
    · have hall : removeAlert t i = t := by
        unfold removeAlert
        rw [List.filter_eq_self]
        intro b hb
        simp only [bne_iff_ne, ne_eq, decide_eq_true_eq]
        intro hbi
        exact hhead b hb (by rw [ha, hbi])
      have hskip : removeAlert (a :: t) i = removeAlert t i := by
        simp [removeAlert, List.filter_cons, ha]
      rw [hskip, hall]
      simp
    · have hkeep : removeAlert (a :: t) i = a :: removeAlert t i := by
        simp [removeAlert, List.filter_cons, bne_iff_ne, ha]
      have h := ih htail
      rw [hkeep]
      simp only [List.length_cons]
      omega

/-- C6 amended: alert ids are the insertion timestamps, so they are
pairwise distinct only when no two visible alerts were added during the
same millisecond; under that provision `addAlert` with a fresh timestamp
preserves distinctness, and `removeAlert id` removes exactly the alerts
whose id matches: at most one element is dropped, every non-matching
alert survives, and every survivor is a non-matching original. Two
alerts inserted at the same timestamp share an id and are removed
together. -/
theorem alert_id_amended :
    (∀ (s : List Alert) (n : Nat) (m k : String),
      (∀ a ∈ s, a.id ≠ n) → distinctIds s → distinctIds (addAlert s n m k).1)
    ∧ (∀ (s : List Alert) (i : Nat), distinctIds s →
        s.length ≤ (removeAlert s i).length + 1
        ∧ (∀ a ∈ s, a.id ≠ i → a ∈ removeAlert s i)
        ∧ (∀ a ∈ removeAlert s i, a ∈ s ∧ a.id ≠ i)) := by
  constructor
  · intro s n m k hfresh hids
    by_cases hdup : hasDuplicate s m k = true
    · simpa [addAlert, hdup] using hids
    · have hdup' : hasDuplicate s m k = false := by simpa using hdup
      simp only [addAlert, hdup', Bool.false_eq_true, if_false]
      unfold distinctIds
      rw [List.pairwise_append]
      refine ⟨hids, List.pairwise_singleton _ _, ?_⟩
      intro a ha b hb
      simp only [List.mem_singleton] at hb
      subst hb
      exact hfresh a ha
  · intro s i hids
    refine ⟨removeAlert_length_aux i s hids, ?_, ?_⟩
    · intro a ha hne
      unfold removeAlert
      rw [List.mem_filter]
      exact ⟨ha, by simpa [bne_iff_ne] using hne⟩
    · intro a ha
      unfold removeAlert at ha
      rw [List.mem_filter] at ha
      exact ⟨ha.1, by simpa [bne_iff_ne] using ha.2⟩

/-- C6 amended witness: adding an alert at a fresh timestamp to a
one-alert store keeps ids distinct, and removing id 2 from the resulting
two-alert store drops at most one element. -/
theorem alert_id_amended_witness :
    distinctIds ((addAlert [⟨1, "a", "info"⟩] 2 "b" "info").1)
    ∧ ([⟨1, "a", "info"⟩, ⟨2, "b", "info"⟩] : List Alert).length ≤
        (removeAlert [⟨1, "a", "info"⟩, ⟨2, "b", "info"⟩] 2).length + 1 :=
  ⟨alert_id_amended.1 [⟨1, "a", "info"⟩] 2 "b" "info" (by decide) (by decide),
   (alert_id_amended.2 [⟨1, "a", "info"⟩, ⟨2, "b", "info"⟩] 2 (by decide)).1⟩

/-- C7: with the default 5MB limit, an oversized file is rejected with
the message citing the 5MB limit, a file whose MIME type is not in the
accepted list is rejected, and a file is accepted iff its type is
JPEG/PNG and its size is at most the limit; the FileUpload component's
own validator accepts under the same condition, reports the 5MB limit
for an oversized file of accepted type, and an invalid file never
becomes the selected file that a submission would upload. -/
theorem fileValidation_spec (f : FileInfo) :
    (5 * 1024 * 1024 < f.size →
        (validateImageFile (some f) 5).isValid = false
        ∧ (validateImageFile (some f) 5).message =
            "File size exceeds 5MB limit. Please upload a smaller image.")
    ∧ ((validateImageFile (some f) 5).isValid = true ↔
        validTypes.contains f.ftype = true ∧ f.size ≤ 5 * 1024 * 1024)
    ∧ (validTypes.contains f.ftype = false →
        (validateImageFile (some f) 5).isValid = false)
    ∧ ((FileUpload.validateFile f).1 = true ↔
        validTypes.contains f.ftype = true ∧ f.size ≤ 5 * 1024 * 1024)
    ∧ (validTypes.contains f.ftype = true → 5 * 1024 * 1024 < f.size →
        FileUpload.validateFile f =
          (false, "File size exceeds 5MB limit. Please select a smaller image.")
        ∧ FileUpload.handleFileChange f = none) := by
  have hA : ∀ _h : 5 * 1024 * 1024 < f.size, validateImageFile (some f) 5 =
      ⟨false, "File size exceeds 5MB limit. Please upload a smaller image."⟩ := by
    intro h; simp only [validateImageFile]; rw [if_pos h]; rfl
  have hB : ¬(5 * 1024 * 1024 < f.size) → validTypes.contains f.ftype = true →
      validateImageFile (some f) 5 = ⟨true, "File is valid"⟩ := by
    intro h ht; simp only [validateImageFile]
    rw [if_neg h, if_neg (by rw [ht]; decide)]
  have hC : ¬(5 * 1024 * 1024 < f.size) → validTypes.contains f.ftype = false →
      validateImageFile (some f) 5 =
        ⟨false, "Unsupported file format: " ++ f.ftype ++
          ". Please upload a JPEG or PNG image."⟩ := by
    intro h ht; simp only [validateImageFile]
    rw [if_neg h, if_pos (by rw [ht]; decide)]
  have hD : validTypes.contains f.ftype = true → ¬(5 * 1024 * 1024 < f.size) →
      FileUpload.validateFile f = (true, "") := by
    intro ht h; unfold FileUpload.validateFile
    rw [if_neg (by rw [ht]; decide), if_neg h]
  have hE : validTypes.contains f.ftype = true → 5 * 1024 * 1024 < f.size →
      FileUpload.validateFile f =
        (false, "File size exceeds 5MB limit. Please select a smaller image.") := by
    intro ht h; unfold FileUpload.validateFile
    rw [if_neg (by rw [ht]; decide), if_pos h]
  have hF : validTypes.contains f.ftype = false →
      FileUpload.validateFile f =
        (false, "Please select a valid image file (JPEG or PNG)") := by
    intro ht; unfold FileUpload.validateFile; rw [if_pos (by rw [ht]; decide)]
  refine ⟨fun hsz => by rw [hA hsz]; exact ⟨rfl, rfl⟩, ?_, ?_, ?_, ?_⟩
  · constructor
    · intro hv
      by_cases hsz : 5 * 1024 * 1024 < f.size
      · rw [hA hsz] at hv; simp at hv
      · cases hty : validTypes.contains f.ftype with
        | false => rw [hC hsz hty] at hv; simp at hv
        | true => exact ⟨rfl, by omega⟩
    · rintro ⟨hty, hsz⟩
      rw [hB (by omega) hty]
  · intro hty
    by_cases hsz : 5 * 1024 * 1024 < f.size
    · rw [hA hsz]
    · rw [hC hsz hty]
  · constructor
    · intro hv
      cases hty : validTypes.contains f.ftype with
      | false => rw [hF hty] at hv; simp at hv
      | true =>
        by_cases hsz : 5 * 1024 * 1024 < f.size
        · rw [hE hty hsz] at hv; simp at hv
        · exact ⟨rfl, by omega⟩
    · rintro ⟨hty, hsz⟩
      rw [hD hty (by omega)]
  · intro hty hsz
    refine ⟨hE hty hsz, ?_⟩
    unfold FileUpload.handleFileChange
    rw [hE hty hsz]
    simp

/-- C7 witness: a 6MB JPEG is rejected by both validators with the
message citing the 5MB limit, and never becomes the selected file. -/
theorem fileValidation_spec_witness :
    (validateImageFile (some ⟨6 * 1024 * 1024, "image/jpeg"⟩) 5).message =
      "File size exceeds 5MB limit. Please upload a smaller image."
    ∧ FileUpload.validateFile ⟨6 * 1024 * 1024, "image/jpeg"⟩ =
        (false, "File size exceeds 5MB limit. Please select a smaller image.")
    ∧ FileUpload.handleFileChange ⟨6 * 1024 * 1024, "image/jpeg"⟩ = none :=
  ⟨((fileValidation_spec ⟨6 * 1024 * 1024, "image/jpeg"⟩).1 (by norm_num)).2,
   ((fileValidation_spec ⟨6 * 1024 * 1024, "image/jpeg"⟩).2.2.2.2 (by decide) (by norm_num)).1,
   ((fileValidation_spec ⟨6 * 1024 * 1024, "image/jpeg"⟩).2.2.2.2 (by decide) (by norm_num)).2⟩

/-- C8: the recommendations field of every successful analysis result
equals the fixed lookup table applied to the predicted class; the four
known classes map to four pairwise-distinct static texts, all distinct
from the default text returned for any other class. -/
theorem recommendations_lookup :
    (∀ data : InferenceResponse,
      (analyzeEyeImageSuccess data).recommendations =
        getRecommendations data.predicted_class)
    ∧ getRecommendations "cataract" =
        "Signs of cataract detected. Please consult an ophthalmologist for further evaluation."
    ∧ getRecommendations "diabetic_retinopathy" =
        "Signs of diabetic retinopathy detected. Urgent consultation with an ophthalmologist is recommended."
    ∧ getRecommendations "glaucoma" =
        "Signs of glaucoma detected. Please schedule an appointment with an ophthalmologist for pressure testing."
    ∧ getRecommendations "normal" =
        "Your eye appears healthy. Continue with regular eye check-ups."
    ∧ List.Pairwise (· ≠ ·)
        [getRecommendations "cataract", getRecommendations "diabetic_retinopathy",
         getRecommendations "glaucoma", getRecommendations "normal",
         "Please consult with an eye care professional for a complete evaluation."]
    ∧ (∀ c : String,
        c ≠ "cataract" → c ≠ "diabetic_retinopathy" → c ≠ "glaucoma" → c ≠ "normal" →
        getRecommendations c =
          "Please consult with an eye care professional for a complete evaluation.") := by
  refine ⟨fun _ => rfl, rfl, rfl, rfl, rfl, by decide, ?_⟩
  intro c h1 h2 h3 h4
  simp [getRecommendations, h1, h2, h3, h4]

/-- C8 witness: a concrete cataract inference response receives the
cataract text, and the unknown class "astigmatism" receives the default
text. -/
theorem recommendations_lookup_witness :
    (analyzeEyeImageSuccess ⟨"cataract", 90, [("cataract", 90)]⟩).recommendations =
      "Signs of cataract detected. Please consult an ophthalmologist for further evaluation."
    ∧ getRecommendations "astigmatism" =
      "Please consult with an eye care professional for a complete evaluation." :=
  ⟨(recommendations_lookup.1 ⟨"cataract", 90, [("cataract", 90)]⟩).trans
      recommendations_lookup.2.1,
   recommendations_lookup.2.2.2.2.2.2 "astigmatism"
      (by decide) (by decide) (by decide) (by decide)⟩

/-- A string that mentions "password" is in particular non-empty. -/
theorem mentionsPassword_ne_empty (t : String) (h : mentionsPassword t = true) :
    t ≠ "" := by
  intro he
  rw [he] at h
  exact absurd h (by decide)

/-- C1 counterexample: a 401 response whose body is "Invalid password"
never reaches the caller untouched through either pipeline. Through the
pipeline built on the first authFetch copy the session is cleared and
the session-expired error surfaced (authFetch removes the token and
throws before apiRequest's password check can run); through the pipeline
built on the body-inspecting second copy the session survives, but
authFetch has already consumed the one-shot body, so apiRequest's second
`response.text()` throws the body-stream-already-read TypeError instead
of returning the raw message. -/
theorem pipeline_v1_password_401 :
    pipelineV1 ⟨some "tok", some "true"⟩ ⟨401, false, "Invalid password", none⟩ =
      (⟨none, none⟩, Except.error "Session expired. Please login again.")
    ∧ mentionsPassword "Invalid password" = true
    ∧ (pipelineV1 ⟨some "tok", some "true"⟩ ⟨401, false, "Invalid password", none⟩).1 ≠
        ⟨some "tok", some "true"⟩
    ∧ (pipelineV1 ⟨some "tok", some "true"⟩ ⟨401, false, "Invalid password", none⟩).2 ≠
        Except.error "Invalid password"
    ∧ pipelineV2 ⟨some "tok", some "true"⟩ ⟨401, false, "Invalid password", none⟩ =
        (⟨some "tok", some "true"⟩, Except.error bodyStreamAlreadyRead)
    ∧ (pipelineV2 ⟨some "tok", some "true"⟩ ⟨401, false, "Invalid password", none⟩).2 ≠
        Except.error "Invalid password" :=
  ⟨rfl, rfl, by decide, by decide, rfl, by decide⟩

/-- C1 amended: for an authenticated request (truthy stored token)
receiving HTTP 401, the raw response message is never surfaced. Through
the pipeline built on the first authFetch copy, every 401 clears the
session and signals the session-expired error, password bodies included.
Through the pipeline built on the body-inspecting second copy, when the
extracted body text mentions "password" the session store is left
unchanged but the caller receives the body-stream-already-read TypeError
(authFetch consumed the one-shot body, and apiRequest's second read of
it throws), not the raw body text; when it does not mention "password"
the session is cleared and the session-expired error signalled. The
hypothesis `hext` states that the text the 401 handler extracts (the
JSON message field for JSON bodies) agrees with the raw body text about
mentioning "password". -/
theorem pipeline_401 (s : Store) (r : Response) (t : String)
    (htok : s.jwt_token = some t) (hne : t ≠ "") (h401 : r.status = 401)
    (hext : mentionsPassword (extractedText r) = mentionsPassword r.body) :
    pipelineV1 s r =
      (⟨none, none⟩, Except.error "Session expired. Please login again.")
    ∧ (mentionsPassword r.body = true →
        pipelineV2 s r = (s, Except.error bodyStreamAlreadyRead))
    ∧ (mentionsPassword r.body = false →
        pipelineV2 s r =
          (⟨none, none⟩, Except.error "Session expired. Please login again.")) := by
  have hne' : (t == "") = false := by simp [hne]
  refine ⟨?_, ?_, ?_⟩
  · have hauth : AuthServiceV1.authFetch s r =
        (⟨none, none⟩, .error "Session expired. Please login again.") := by
      simp [AuthServiceV1.authFetch, htok, hne', h401, removeToken]
    simp [pipelineV1, apiRequest, hauth]
  · intro hmen
    have hmx : mentionsPassword (extractedText r) = true := hext.trans hmen
    have hb1 : (extractedText r != "") = true := by
      simpa [bne_iff_ne] using mentionsPassword_ne_empty _ hmx
    have hauth : AuthServiceV2.authFetch s r = (s, .ok (r, true)) := by
      simp [AuthServiceV2.authFetch, htok, hne', h401, hb1, hmx]
    have hok : respOk r = false := by simp [respOk, h401]
    simp [pipelineV2, apiRequest, hauth, hok, h401]
  · intro hmen
    have hmx : mentionsPassword (extractedText r) = false := hext.trans hmen
    have hauth : AuthServiceV2.authFetch s r =
        (⟨none, none⟩, .error "Session expired. Please login again.") := by
      simp [AuthServiceV2.authFetch, htok, hne', h401, hmx, removeToken]
    simp [pipelineV2, apiRequest, hauth]

/-- C1 amended witness: with a stored token, a 401 through the first
pipeline always yields the cleared session and expiry error; through the
second pipeline the body "Invalid password" leaves the session intact
but surfaces the body-stream-already-read TypeError, while the body
"token expired" clears the session and yields the expiry error. -/
theorem pipeline_401_witness :
    pipelineV1 ⟨some "tok", some "true"⟩ ⟨401, false, "token expired", none⟩ =
      (⟨none, none⟩, Except.error "Session expired. Please login again.")
    ∧ pipelineV2 ⟨some "tok", some "true"⟩ ⟨401, false, "Invalid password", none⟩ =
      (⟨some "tok", some "true"⟩, Except.error bodyStreamAlreadyRead)
    ∧ pipelineV2 ⟨some "tok", some "true"⟩ ⟨401, false, "token expired", none⟩ =
      (⟨none, none⟩, Except.error "Session expired. Please login again.") :=
  ⟨(pipeline_401 ⟨some "tok", some "true"⟩ ⟨401, false, "token expired", none⟩
      "tok" rfl (by decide) rfl rfl).1,
   (pipeline_401 ⟨some "tok", some "true"⟩ ⟨401, false, "Invalid password", none⟩
      "tok" rfl (by decide) rfl rfl).2.1 (by decide),
   (pipeline_401 ⟨some "tok", some "true"⟩ ⟨401, false, "token expired", none⟩
      "tok" rfl (by decide) rfl rfl).2.2 (by decide)⟩
